import Mathlib

/-!
Verification development for the ubattery backend.

Shallow embedding of `ubattery/blueprints/auth.py`,
`ubattery/blueprints/index.py` and `ubattery/models/vehicle.py`.

Modelling conventions:
* A row of the external `users` table is a `UserRow`; the table itself is a
  `List UserRow`.  `SELECT ... WHERE user_name = %s LIMIT 1` becomes
  `List.find?` on the user name, and the single `UPDATE ... WHERE user_name
  = %s` becomes a `List.map` that rewrites every row whose name matches.
* The `last_login_time` column is kept in its `DATE_FORMAT` rendering
  (`YYYY-MM-DD HH:MM:SS`), since the code only ever writes a string produced
  by `strftime` with that pattern and only ever reads the column through
  `DATE_FORMAT` with the same pattern, which round-trips such strings.
* The Flask session is `Option String`: it carries at most the single
  claim `user_name`, exactly as the code stores it.
* `werkzeug.security.check_password_hash` is third-party code, so the login
  function is parameterised by an arbitrary comparison
  `check : String → String → Bool` applied to the stored hash and the
  submitted password, mirroring the call of `check_password_hash` on
  `user_info[0]` and the submitted password.
* `datetime.now()` is a parameter of type `PyDateTime`; the strftime call
  with pattern `%Y-%m-%d %H:%M:%S` is the function `formatYmdHms`.
* `werkzeug.contrib.cache.SimpleCache` is modelled as an association list
  with `get` and overwriting `set`.
* Effects on the database are made observable: each login result carries
  the resulting table plus the list of committed UPDATE statements (each
  recorded as its bound parameter pair `(now, user_name)`).
-/

/-- One row of the external `users` table, with the columns the code
references: password hash, id, user_name, user_type, avatar_name,
last_login_time (kept formatted), user_status, login_count. -/
structure UserRow where
  password : String
  id : Nat
  user_name : String
  user_type : Int
  avatar_name : String
  last_login_time : String
  user_status : Int
  login_count : Nat
  deriving Repr, DecidableEq

/-- The JSON body of the POST /login request: `{userName, password}`. -/
structure LoginData where
  userName : String
  password : String
  deriving Repr, DecidableEq

/-- The `data` field of the JSON responses produced by the auth blueprint:
`null`, an error string, or the success payload
`{userName, userType, avatarName, lastLoginTime}`. -/
inductive JsonData where
  | null : JsonData
  | err (msg : String) : JsonData
  | payload (userName : String) (userType : Int)
      (avatarName : String) (lastLoginTime : String) : JsonData
  deriving Repr, DecidableEq

/-- The JSON response shape `{status: bool, data: ...}`. -/
structure ApiResponse where
  status : Bool
  data : JsonData
  deriving Repr, DecidableEq

/-- A wall-clock instant as produced by `datetime.now()`. -/
structure PyDateTime where
  year : Nat
  month : Nat
  day : Nat
  hour : Nat
  minute : Nat
  second : Nat
  deriving Repr, DecidableEq

/-- Zero-pad a number to two digits, as `strftime` does for
`%m %d %H %M %S`. -/
def pad2 (n : Nat) : String :=
  if n < 10 then "0" ++ toString n else toString n

/-- Zero-pad a number to four digits, as `strftime` does for `%Y`. -/
def pad4 (n : Nat) : String :=
  if n < 10 then "000" ++ toString n
  else if n < 100 then "00" ++ toString n
  else if n < 1000 then "0" ++ toString n
  else toString n

/-- The strftime call of `datetime.now()` with pattern
`%Y-%m-%d %H:%M:%S`: the `YYYY-MM-DD HH:MM:SS` rendering used both for
the UPDATE parameter and by `DATE_FORMAT` in the SELECTs. -/
def formatYmdHms (t : PyDateTime) : String :=
  pad4 t.year ++ "-" ++ pad2 t.month ++ "-" ++ pad2 t.day ++ " " ++
    pad2 t.hour ++ ":" ++ pad2 t.minute ++ ":" ++ pad2 t.second

/-- `SELECT ... FROM users WHERE user_name = %s LIMIT 1` followed by
`fetchone()`: the first row whose `user_name` equals the given name. -/
def fetchUser (db : List UserRow) (name : String) : Option UserRow :=
  db.find? (fun u => u.user_name == name)

/-- `UPDATE users SET last_login_time = %s, login_count = login_count + 1
WHERE user_name = %s`: every row whose name matches gets the new timestamp
and an incremented counter; all other rows and fields are untouched. -/
def applyLoginUpdate (db : List UserRow) (nowS name : String) :
    List UserRow :=
  db.map (fun u =>
    if u.user_name == name then
      { u with last_login_time := nowS, login_count := u.login_count + 1 }
    else u)

/-- The outcome of one run of the `login` view: the JSON response, the
session after the run, the `users` table after the run, and the list of
committed UPDATE statements, each recorded as its parameter pair
`(now, user_name)`. -/
structure LoginResult where
  response : ApiResponse
  session : Option String
  db : List UserRow
  updates : List (String × String)
  deriving Repr, DecidableEq

/-- The generic failure message of the credential path
(帐号或密码错误！, "incorrect account or password"). -/
def wrongCredMsg : String := "帐号或密码错误！"

/-- The disabled-account message (该用户已被禁止登录！, "this account
has been banned from logging in"). -/
def bannedMsg : String := "该用户已被禁止登录！"

/-- The GET-path message for a session naming a missing row
(cookie 获取失败！, "cookie retrieval failed"). -/
def cookieFailMsg : String := "cookie 获取失败！"

/-- The POST branch of the `login` view (`auth.py` lines 123-187).
`check` stands for `werkzeug.security.check_password_hash`, `now` for
`datetime.now()`, `sess` for the session on entry, `db` for the `users`
table on entry. -/
def loginPost (check : String → String → Bool) (now : PyDateTime)
    (data : LoginData) (sess : Option String) (db : List UserRow) :
    LoginResult :=
  let nowS := formatYmdHms now
  match fetchUser db data.userName with
  | none =>
      { response := ⟨false, JsonData.err wrongCredMsg⟩
        session := sess, db := db, updates := [] }
  | some u =>
      if ¬ check u.password data.password then
        { response := ⟨false, JsonData.err wrongCredMsg⟩
          session := sess, db := db, updates := [] }
      else if u.user_status == 0 then
        { response := ⟨false, JsonData.err bannedMsg⟩
          session := sess, db := db, updates := [] }
      else
        { response := ⟨true, JsonData.payload u.user_name u.user_type
            u.avatar_name u.last_login_time⟩
          session := some u.user_name
          db := applyLoginUpdate db nowS data.userName
          updates := [(nowS, data.userName)] }

/-- The GET branch of the `login` view (`auth.py` lines 86-121 and the
shared tail 168-187): re-validate an existing session without
credentials; on success the session is cleared and re-set to the fetched
user name, and no UPDATE runs. -/
def loginGet (sess : Option String) (db : List UserRow) : LoginResult :=
  match sess with
  | none =>
      { response := ⟨false, JsonData.null⟩
        session := none, db := db, updates := [] }
  | some name =>
      match fetchUser db name with
      | none =>
          { response := ⟨false, JsonData.err cookieFailMsg⟩
            session := some name, db := db, updates := [] }
      | some u =>
          if u.user_status == 0 then
            { response := ⟨false, JsonData.err bannedMsg⟩
              session := some name, db := db, updates := [] }
          else
            { response := ⟨true, JsonData.payload u.user_name u.user_type
                u.avatar_name u.last_login_time⟩
              session := some u.user_name, db := db, updates := [] }

/-- The in-memory user cache (`user_cache = SimpleCache()` in `auth.py`),
modelled as an association list from user name to the cached
`(user_name, user_type)` tuple. -/
abbrev UserCache := List (String × (String × Int))

/-- `SimpleCache.get`: the value stored under the key, if any. -/
def cacheGet (c : UserCache) (k : String) : Option (String × Int) :=
  (c.find? (fun p => p.1 == k)).map (fun p => p.2)

/-- `SimpleCache.set`: store a value under the key, replacing any previous
entry for that key. -/
def cacheSet (c : UserCache) (k : String) (v : String × Int) : UserCache :=
  (k, v) :: c.filter (fun p => p.1 != k)

/-- The outcome of one run of the identity-loading hook: the per-request
current-user context `g.user`, the cache after the run, and the number of
database queries issued during the run. -/
structure HookResult where
  gUser : Option (String × Int)
  cache : UserCache
  queries : Nat
  deriving Repr, DecidableEq

/-- The `before_app_request` hook `load_logged_in_user` (`auth.py` lines
55-78): with no session claim, `g.user` is `None` and no query runs; with
a claim, the cache is consulted first, and only on a miss does one
`SELECT user_name, user_type` query run, whose non-empty result is
written back into the cache. -/
def load_logged_in_user (sess : Option String) (cache : UserCache)
    (db : List UserRow) : HookResult :=
  match sess with
  | none => { gUser := none, cache := cache, queries := 0 }
  | some name =>
      match cacheGet cache name with
      | some gu => { gUser := some gu, cache := cache, queries := 0 }
      | none =>
          match (fetchUser db name).map (fun u => (u.user_name, u.user_type)) with
          | none => { gUser := none, cache := cache, queries := 1 }
          | some gu =>
              { gUser := some gu, cache := cacheSet cache name gu, queries := 1 }

/-- The `login_required` decorator (`auth.py` lines 14-29): the wrapped
view aborts with 403 when `g.user` is `None`, and otherwise runs the
original view on its arguments. -/
def login_required {α β : Type} (view : α → β)
    (gUser : Option (String × Int)) (a : α) : Except Nat β :=
  match gUser with
  | none => Except.error 403
  | some _ => Except.ok (view a)

/-- The `super_user_required` decorator (`auth.py` lines 32-46): aborts
with 403 when `g.user` is `None` or when its second component, the user
type, differs from 1. -/
def super_user_required {α β : Type} (view : α → β)
    (gUser : Option (String × Int)) (a : α) : Except Nat β :=
  match gUser with
  | none => Except.error 403
  | some gu => if gu.2 != 1 then Except.error 403 else Except.ok (view a)

/-- The body of the `logout` view (`auth.py` lines 190-202): clear the
session entirely and answer with status true and null data. -/
def logoutBody (_sess : Option String) : ApiResponse × Option String :=
  (⟨true, JsonData.null⟩, none)

/-- The `/logout` route: `logout` wrapped by `login_required`. -/
def logoutRoute (gUser : Option (String × Int)) (sess : Option String) :
    Except Nat (ApiResponse × Option String) :=
  login_required logoutBody gUser sess

/-- `send_from_directory`: serve the named file from a directory, here an
association list from file name to content; a missing file yields the
standard not-found response 404. -/
def send_from_directory (files : List (String × String))
    (filename : String) : Except Nat String :=
  match (files.find? (fun p => p.1 == filename)).map (fun p => p.2) with
  | none => Except.error 404
  | some content => Except.ok content

/-- The protected avatar route `get_avatar` of the auth blueprint
(`auth.py` lines 205-212): `send_from_directory` on the avatar directory,
wrapped by `login_required`. -/
def get_avatar (files : List (String × String))
    (gUser : Option (String × Int)) (filename : String) :
    Except Nat (Except Nat String) :=
  login_required (send_from_directory files) gUser filename

/-- A MySQL column type as used in `ubattery/models/vehicle.py`. -/
inductive ColType where
  | integer : ColType
  | varchar (length : Nat) : ColType
  | datetime : ColType
  | decimal (precision scale : Nat) : ColType
  deriving Repr, DecidableEq

/-- One declared column of the `Vehicle` model: name, type, whether it is
the primary key, whether it carries an index, and its comment. -/
structure ColumnSpec where
  name : String
  colType : ColType
  primaryKey : Bool
  indexed : Bool
  comment : String
  deriving Repr, DecidableEq

/-- The table name declared by the `Vehicle` model. -/
def vehicleTableName : String := "yutong_vehicle1"

/-- The columns of the `Vehicle` model (`vehicle.py` lines 6-53), in
declaration order, with the declared types, key, index and comments. -/
def vehicleColumns : List ColumnSpec :=
  [ ⟨"id", ColType.integer, true, false, ""⟩,
    ⟨"province", ColType.varchar 100, false, false, "省"⟩,
    ⟨"city", ColType.varchar 100, false, false, "城市"⟩,
    ⟨"timestamp", ColType.datetime, false, true, "CST 时间"⟩,
    ⟨"bty_t_vol", ColType.decimal 10 2, false, false, "电池总电压"⟩,
    ⟨"bty_t_curr", ColType.decimal 10 2, false, false, "电池总电流"⟩,
    ⟨"battery_soc", ColType.decimal 5 2, false, false, "SOC"⟩,
    ⟨"s_b_max_t", ColType.integer, false, false, "电池最高温度"⟩,
    ⟨"max_t_s_b_num", ColType.integer, false, false, "最高温度电池号"⟩,
    ⟨"s_b_min_t", ColType.integer, false, false, "电池最低温度"⟩,
    ⟨"min_t_s_b_num", ColType.integer, false, false, "最低温度电池号"⟩,
    ⟨"s_b_max_v", ColType.decimal 10 6, false, false, "电池最高电压"⟩,
    ⟨"max_v_e_core_num", ColType.integer, false, false, "最高电压电芯号"⟩,
    ⟨"s_b_min_v", ColType.decimal 10 6, false, false, "电池最低电压"⟩,
    ⟨"min_v_e_core_num", ColType.integer, false, false, "最低电压电芯号"⟩,
    ⟨"p_t_p", ColType.decimal 10 2, false, false, "正向累计电量"⟩,
    ⟨"r_t_p", ColType.decimal 10 2, false, false, "反向累计电量"⟩,
    ⟨"total_mileage", ColType.integer, false, false, "总里程"⟩,
    ⟨"bty_sys_rated_capacity", ColType.integer, false, false, "额定容量"⟩,
    ⟨"bty_sys_rated_consumption", ColType.integer, false, false, "额定能量"⟩,
    ⟨"met_spd", ColType.integer, false, false, "车速"⟩,
    ⟨"byt_ma_sys_state", ColType.integer, false, false, "充电状态，6 代表充电中"⟩ ]

/-- Look a column of the `Vehicle` model up by name. -/
def colSpec (name : String) : Option ColumnSpec :=
  vehicleColumns.find? (fun c => c.name == name)

/-- Storage discipline of a MySQL `DECIMAL(p, s)` column: the value is
rounded to `s` fractional digits and kept when it fits in `p` digits
overall (that is, when the rounded value measured in units of
`10 ^ (-s)` stays below `10 ^ p` in absolute value). -/
def storeDecimal (p s : Nat) (q : ℚ) : Option ℚ :=
  let units : Int := round (q * (10 : ℚ) ^ s)
  if units.natAbs < 10 ^ p then some ((units : ℚ) / (10 : ℚ) ^ s) else none

/-- Storage discipline of a MySQL signed `INTEGER` column. -/
def storeInt (v : Int) : Option Int :=
  if -(2 ^ 31) ≤ v ∧ v < 2 ^ 31 then some v else none

/-- `q` is exactly representable in a `DECIMAL(p, s)` column: an integer
number of `10 ^ (-s)` units, within `p` digits. -/
def exactDecimal (p s : Nat) (q : ℚ) : Prop :=
  ∃ n : Int, q * (10 : ℚ) ^ s = (n : ℚ) ∧ n.natAbs < 10 ^ p

/-- One `Vehicle` record as the model maps it: decimal columns as
rationals, integer columns as integers, strings and the timestamp as
strings. -/
structure VehicleRecord where
  id : Int
  province : String
  city : String
  timestamp : String
  bty_t_vol : ℚ
  bty_t_curr : ℚ
  battery_soc : ℚ
  s_b_max_t : Int
  max_t_s_b_num : Int
  s_b_min_t : Int
  min_t_s_b_num : Int
  s_b_max_v : ℚ
  max_v_e_core_num : Int
  s_b_min_v : ℚ
  min_v_e_core_num : Int
  p_t_p : ℚ
  r_t_p : ℚ
  total_mileage : Int
  bty_sys_rated_capacity : Int
  bty_sys_rated_consumption : Int
  met_spd : Int
  byt_ma_sys_state : Int

/-- Read-back of one rational through a `DECIMAL` column of scale `s`:
the value rounded to `s` fractional digits. -/
def decRead (s : Nat) (q : Rat) : Rat :=
  ((round (q * (10 : Rat) ^ s) : Int) : Rat) / (10 : Rat) ^ s

/-- Read a whole `Vehicle` record back through the declared column types:
every decimal column is rounded at its declared scale, every other column
is returned as stored. -/
def storedVehicle (r : VehicleRecord) : VehicleRecord :=
  { r with
    bty_t_vol := decRead 2 r.bty_t_vol
    bty_t_curr := decRead 2 r.bty_t_curr
    battery_soc := decRead 2 r.battery_soc
    s_b_max_v := decRead 6 r.s_b_max_v
    s_b_min_v := decRead 6 r.s_b_min_v
    p_t_p := decRead 2 r.p_t_p
    r_t_p := decRead 2 r.r_t_p }

/-- All integer columns of a record are within `INTEGER` range. -/
def vehicleIntsInRange (r : VehicleRecord) : Prop :=
  storeInt r.id = some r.id ∧
  storeInt r.s_b_max_t = some r.s_b_max_t ∧
  storeInt r.max_t_s_b_num = some r.max_t_s_b_num ∧
  storeInt r.s_b_min_t = some r.s_b_min_t ∧
  storeInt r.min_t_s_b_num = some r.min_t_s_b_num ∧
  storeInt r.max_v_e_core_num = some r.max_v_e_core_num ∧
  storeInt r.min_v_e_core_num = some r.min_v_e_core_num ∧
  storeInt r.total_mileage = some r.total_mileage ∧
  storeInt r.bty_sys_rated_capacity = some r.bty_sys_rated_capacity ∧
  storeInt r.bty_sys_rated_consumption = some r.bty_sys_rated_consumption ∧
  storeInt r.met_spd = some r.met_spd ∧
  storeInt r.byt_ma_sys_state = some r.byt_ma_sys_state

/-- All decimal columns of a record are exactly representable at their
declared precision and scale. -/
def vehicleDecimalsExact (r : VehicleRecord) : Prop :=
  exactDecimal 10 2 r.bty_t_vol ∧
  exactDecimal 10 2 r.bty_t_curr ∧
  exactDecimal 5 2 r.battery_soc ∧
  exactDecimal 10 6 r.s_b_max_v ∧
  exactDecimal 10 6 r.s_b_min_v ∧
  exactDecimal 10 2 r.p_t_p ∧
  exactDecimal 10 2 r.r_t_p

theorem fetchUser_applyLoginUpdate (db : List UserRow) (nowS name : String) :
    fetchUser (applyLoginUpdate db nowS name) name
      = (fetchUser db name).map
          (fun u => { u with last_login_time := nowS,
                             login_count := u.login_count + 1 }) := by
  induction db with
  | nil => rfl
  | cons u rest ih =>
    cases hb : u.user_name == name with
    | true =>
        have h : u.user_name = name := by simpa using hb
        simp [applyLoginUpdate, fetchUser, List.find?_cons, h]
    | false =>
        have h : ¬ (u.user_name = name) := by simpa using hb
        simp only [applyLoginUpdate, fetchUser] at ih ⊢
        simp only [List.map_cons, List.find?_cons, h, if_neg, hb,
          List.find?_map] at ih ⊢
        simpa [hb] using ih

/-- C1: with a matching enabled row and a password accepted against the
stored hash, the POST login answers status true, stores the row's user
name as the only session claim, commits exactly one UPDATE carrying the
formatted current time, and the row afterwards carries that timestamp and
a login count larger by exactly one, -/
theorem c1_login_success_updates_row
    (check : String → String → Bool) (now : PyDateTime) (data : LoginData)
    (sess : Option String) (db : List UserRow) (u : UserRow)
    (hfind : fetchUser db data.userName = some u)
    (hpw : check u.password data.password = true)
    (hstatus : u.user_status ≠ 0) :
    (loginPost check now data sess db).response.status = true ∧
    (loginPost check now data sess db).session = some u.user_name ∧
    (loginPost check now data sess db).updates
      = [(formatYmdHms now, data.userName)] ∧
    fetchUser (loginPost check now data sess db).db data.userName
      = some { u with last_login_time := formatYmdHms now,
                      login_count := u.login_count + 1 } := by
  have hb : (u.user_status == 0) = false := by simpa using hstatus
  simp [loginPost, hfind, hpw, hb, fetchUser_applyLoginUpdate]

/-- Witness for C1 at a concrete enabled row with a matching password. -/
theorem c1_login_success_updates_row_witness :
    (loginPost (fun h p => h == p) ⟨2026, 10, 12, 9, 5, 3⟩ ⟨"alice", "pw"⟩
        none
        [⟨"pw", 1, "alice", 1, "a.png", "2025-01-01 00:00:00", 1, 7⟩]).response.status
      = true ∧
    (loginPost (fun h p => h == p) ⟨2026, 10, 12, 9, 5, 3⟩ ⟨"alice", "pw"⟩
        none
        [⟨"pw", 1, "alice", 1, "a.png", "2025-01-01 00:00:00", 1, 7⟩]).session
      = some "alice" ∧
    (loginPost (fun h p => h == p) ⟨2026, 10, 12, 9, 5, 3⟩ ⟨"alice", "pw"⟩
        none
        [⟨"pw", 1, "alice", 1, "a.png", "2025-01-01 00:00:00", 1, 7⟩]).updates
      = [("2026-10-12 09:05:03", "alice")] ∧
    fetchUser
        (loginPost (fun h p => h == p) ⟨2026, 10, 12, 9, 5, 3⟩
          ⟨"alice", "pw"⟩ none
          [⟨"pw", 1, "alice", 1, "a.png", "2025-01-01 00:00:00", 1, 7⟩]).db
        "alice"
      = some ⟨"pw", 1, "alice", 1, "a.png", "2026-10-12 09:05:03", 1, 8⟩ := by
  have h := c1_login_success_updates_row (fun h p => h == p)
    ⟨2026, 10, 12, 9, 5, 3⟩ ⟨"alice", "pw"⟩ none
    [⟨"pw", 1, "alice", 1, "a.png", "2025-01-01 00:00:00", 1, 7⟩]
    ⟨"pw", 1, "alice", 1, "a.png", "2025-01-01 00:00:00", 1, 7⟩
    (by decide) (by decide) (by decide)
  refine ⟨h.1, h.2.1, ?_, ?_⟩
  · exact h.2.2.1.trans (by decide)
  · exact h.2.2.2.trans (by decide)

/-- C2: with a matching row whose user_status is 0, the POST login leaves
the session untouched, answers status false, commits no UPDATE, and when
the password is accepted the answer carries the disabled-account message;
so a disabled user never obtains a session through the credential path. -/
theorem c2_disabled_never_gets_session
    (check : String → String → Bool) (now : PyDateTime) (data : LoginData)
    (sess : Option String) (db : List UserRow) (u : UserRow)
    (hfind : fetchUser db data.userName = some u)
    (hstatus : u.user_status = 0) :
    (loginPost check now data sess db).session = sess ∧
    (loginPost check now data sess db).response.status = false ∧
    (loginPost check now data sess db).updates = [] ∧
    (loginPost check now data sess db).db = db ∧
    (check u.password data.password = true →
      (loginPost check now data sess db).response
        = ⟨false, JsonData.err bannedMsg⟩) := by
  cases hpw : check u.password data.password <;>
    simp [loginPost, hfind, hpw, hstatus]

/-- Witness for C2 at a concrete disabled row with a matching password. -/
theorem c2_disabled_never_gets_session_witness :
    (loginPost (fun h p => h == p) ⟨2026, 10, 12, 9, 5, 3⟩ ⟨"bob", "pw"⟩
        (some "prior")
        [⟨"pw", 2, "bob", 0, "b.png", "2024-05-05 05:05:05", 0, 3⟩]).session
      = some "prior" ∧
    (loginPost (fun h p => h == p) ⟨2026, 10, 12, 9, 5, 3⟩ ⟨"bob", "pw"⟩
        (some "prior")
        [⟨"pw", 2, "bob", 0, "b.png", "2024-05-05 05:05:05", 0, 3⟩]).response
      = ⟨false, JsonData.err bannedMsg⟩ := by
  have h := c2_disabled_never_gets_session (fun h p => h == p)
    ⟨2026, 10, 12, 9, 5, 3⟩ ⟨"bob", "pw"⟩ (some "prior")
    [⟨"pw", 2, "bob", 0, "b.png", "2024-05-05 05:05:05", 0, 3⟩]
    ⟨"pw", 2, "bob", 0, "b.png", "2024-05-05 05:05:05", 0, 3⟩
    (by decide) (by decide)
  exact ⟨h.1, h.2.2.2.2 (by decide)⟩

/-- C3: when no row matches the submitted name, or a row matches but the
password is rejected against its stored hash, the POST login answers the
same generic failure message and changes neither session nor table. -/
theorem c3_generic_failure_message
    (check : String → String → Bool) (now : PyDateTime) (data : LoginData)
    (sess : Option String) (db : List UserRow)
    (h : fetchUser db data.userName = none ∨
      ∃ u, fetchUser db data.userName = some u ∧
        check u.password data.password = false) :
    (loginPost check now data sess db).response
      = ⟨false, JsonData.err wrongCredMsg⟩ ∧
    (loginPost check now data sess db).session = sess ∧
    (loginPost check now data sess db).db = db ∧
    (loginPost check now data sess db).updates = [] := by
  rcases h with h | ⟨u, hfind, hpw⟩
  · simp [loginPost, h]
  · simp [loginPost, hfind, hpw]

/-- Witness for C3 at a name absent from a concrete table. -/
theorem c3_generic_failure_message_witness :
    (loginPost (fun h p => h == p) ⟨2026, 10, 12, 9, 5, 3⟩
        ⟨"mallory", "pw"⟩ none
        [⟨"pw", 1, "alice", 1, "a.png", "2025-01-01 00:00:00", 1, 7⟩]).response
      = ⟨false, JsonData.err wrongCredMsg⟩ := by
  have h := c3_generic_failure_message (fun h p => h == p)
    ⟨2026, 10, 12, 9, 5, 3⟩ ⟨"mallory", "pw"⟩ none
    [⟨"pw", 1, "alice", 1, "a.png", "2025-01-01 00:00:00", 1, 7⟩]
    (Or.inl (by decide))
  exact h.1

/-- C9: for a matching disabled row, a rejected password yields the
generic failure message and not the disabled-account message, because the
password comparison runs before the status test. -/
theorem c9_password_checked_before_status
    (check : String → String → Bool) (now : PyDateTime) (data : LoginData)
    (sess : Option String) (db : List UserRow) (u : UserRow)
    (hfind : fetchUser db data.userName = some u)
    (hstatus : u.user_status = 0)
    (hpw : check u.password data.password = false) :
    (loginPost check now data sess db).response
      = ⟨false, JsonData.err wrongCredMsg⟩ ∧
    (loginPost check now data sess db).response.data
      ≠ JsonData.err bannedMsg := by
  have h1 : (loginPost check now data sess db).response
      = ⟨false, JsonData.err wrongCredMsg⟩ := by
    simp [loginPost, hfind, hpw]
  refine ⟨h1, ?_⟩
  rw [h1]
  simp [wrongCredMsg, bannedMsg]

/-- Witness for C9 at a concrete disabled row and a wrong password. -/
theorem c9_password_checked_before_status_witness :
    (loginPost (fun h p => h == p) ⟨2026, 10, 12, 9, 5, 3⟩
        ⟨"bob", "wrong"⟩ none
        [⟨"pw", 2, "bob", 0, "b.png", "2024-05-05 05:05:05", 0, 3⟩]).response
      = ⟨false, JsonData.err wrongCredMsg⟩ := by
  have h := c9_password_checked_before_status (fun h p => h == p)
    ⟨2026, 10, 12, 9, 5, 3⟩ ⟨"bob", "wrong"⟩ none
    [⟨"pw", 2, "bob", 0, "b.png", "2024-05-05 05:05:05", 0, 3⟩]
    ⟨"pw", 2, "bob", 0, "b.png", "2024-05-05 05:05:05", 0, 3⟩
    (by decide) (by decide) (by decide)
  exact h.1

/-- C10: the success payload repeats the fetched row verbatim, so its
lastLoginTime field is the value read before the UPDATE and does not
depend on the current time, while the stored value after the UPDATE is
the formatted current time; the user name answered and stored in the
session is the one of the database row. -/
theorem c10_payload_uses_previous_login_time
    (check : String → String → Bool) (now : PyDateTime) (data : LoginData)
    (sess : Option String) (db : List UserRow) (u : UserRow)
    (hfind : fetchUser db data.userName = some u)
    (hpw : check u.password data.password = true)
    (hstatus : u.user_status ≠ 0) :
    (loginPost check now data sess db).response
      = ⟨true, JsonData.payload u.user_name u.user_type u.avatar_name
          u.last_login_time⟩ ∧
    (∀ now2 : PyDateTime, (loginPost check now2 data sess db).response
      = (loginPost check now data sess db).response) ∧
    fetchUser (loginPost check now data sess db).db data.userName
      = some { u with last_login_time := formatYmdHms now,
                      login_count := u.login_count + 1 } ∧
    (loginPost check now data sess db).session = some u.user_name := by
  have hb : (u.user_status == 0) = false := by simpa using hstatus
  refine ⟨?_, ?_, ?_, ?_⟩
  · simp [loginPost, hfind, hpw, hb]
  · intro now2
    simp [loginPost, hfind, hpw, hb]
  · simp [loginPost, hfind, hpw, hb, fetchUser_applyLoginUpdate]
  · simp [loginPost, hfind, hpw, hb]

/-- Witness for C10 at a concrete enabled row, comparing two different
clock values. -/
theorem c10_payload_uses_previous_login_time_witness :
    (loginPost (fun h p => h == p) ⟨2026, 10, 12, 9, 5, 3⟩ ⟨"alice", "pw"⟩
        none
        [⟨"pw", 1, "alice", 1, "a.png", "2025-01-01 00:00:00", 1, 7⟩]).response
      = ⟨true, JsonData.payload "alice" 1 "a.png" "2025-01-01 00:00:00"⟩ ∧
    (loginPost (fun h p => h == p) ⟨2030, 1, 2, 3, 4, 5⟩ ⟨"alice", "pw"⟩
        none
        [⟨"pw", 1, "alice", 1, "a.png", "2025-01-01 00:00:00", 1, 7⟩]).response
      = (loginPost (fun h p => h == p) ⟨2026, 10, 12, 9, 5, 3⟩
          ⟨"alice", "pw"⟩ none
          [⟨"pw", 1, "alice", 1, "a.png", "2025-01-01 00:00:00", 1, 7⟩]).response := by
  have h := c10_payload_uses_previous_login_time (fun h p => h == p)
    ⟨2026, 10, 12, 9, 5, 3⟩ ⟨"alice", "pw"⟩ none
    [⟨"pw", 1, "alice", 1, "a.png", "2025-01-01 00:00:00", 1, 7⟩]
    ⟨"pw", 1, "alice", 1, "a.png", "2025-01-01 00:00:00", 1, 7⟩
    (by decide) (by decide) (by decide)
  exact ⟨h.1, h.2.1 ⟨2030, 1, 2, 3, 4, 5⟩⟩

theorem cacheGet_cacheSet (c : UserCache) (k : String) (v : String × Int) :
    cacheGet (cacheSet c k v) k = some v := by
  simp [cacheGet, cacheSet]

/-- C4: the identity-loading hook answers no user without a session claim;
with a claim it serves a cache hit without querying, and on a miss issues
exactly one query, caching only a non-empty result, so that a second
invocation for a name present in the table queries nothing further. -/
theorem c4_hook_cache_discipline (cache : UserCache) (db : List UserRow) :
    (load_logged_in_user none cache db
      = { gUser := none, cache := cache, queries := 0 }) ∧
    (∀ (name : String) (gu : String × Int), cacheGet cache name = some gu →
      load_logged_in_user (some name) cache db
        = { gUser := some gu, cache := cache, queries := 0 }) ∧
    (∀ name : String, cacheGet cache name = none →
      (load_logged_in_user (some name) cache db).queries = 1 ∧
      (fetchUser db name = none →
        load_logged_in_user (some name) cache db
          = { gUser := none, cache := cache, queries := 1 }) ∧
      (∀ u : UserRow, fetchUser db name = some u →
        load_logged_in_user (some name) cache db
          = { gUser := some (u.user_name, u.user_type),
              cache := cacheSet cache name (u.user_name, u.user_type),
              queries := 1 })) ∧
    (∀ (name : String) (u : UserRow), fetchUser db name = some u →
      (load_logged_in_user (some name)
        (load_logged_in_user (some name) cache db).cache db).queries = 0) := by
  refine ⟨rfl, ?_, ?_, ?_⟩
  · intro name gu h
    simp [load_logged_in_user, h]
  · intro name h
    refine ⟨?_, ?_, ?_⟩
    · cases hf : fetchUser db name <;>
        simp [load_logged_in_user, h, hf]
    · intro hf
      simp [load_logged_in_user, h, hf]
    · intro u hf
      simp [load_logged_in_user, h, hf]
  · intro name u hf
    cases hc : cacheGet cache name with
    | some gu => simp [load_logged_in_user, hc]
    | none => simp [load_logged_in_user, hc, hf, cacheGet_cacheSet]

/-- Witness for C4: with an empty cache the first invocation issues one
query and the second, served from the now filled cache, issues none. -/
theorem c4_hook_cache_discipline_witness :
    (load_logged_in_user (some "alice") []
        [⟨"pw", 1, "alice", 1, "a.png", "2025-01-01 00:00:00", 1, 7⟩]).queries
      = 1 ∧
    (load_logged_in_user (some "alice")
        (load_logged_in_user (some "alice") []
          [⟨"pw", 1, "alice", 1, "a.png", "2025-01-01 00:00:00", 1, 7⟩]).cache
        [⟨"pw", 1, "alice", 1, "a.png", "2025-01-01 00:00:00", 1, 7⟩]).queries
      = 0 := by
  have h := c4_hook_cache_discipline []
    [⟨"pw", 1, "alice", 1, "a.png", "2025-01-01 00:00:00", 1, 7⟩]
  exact ⟨(h.2.2.1 "alice" (by decide)).1,
    h.2.2.2 "alice"
      ⟨"pw", 1, "alice", 1, "a.png", "2025-01-01 00:00:00", 1, 7⟩
      (by decide)⟩

/-- C5: the authenticated-only guard rejects with 403 whatever the
wrapped view is when the current-user context is empty; logout under any
authenticated context clears the session and answers status true with
null data; and any guarded operation of a following request built from
the cleared session is rejected with 403. -/
theorem c5_guard_forbidden_after_logout :
    (∀ (α β : Type) (view : α → β) (a : α),
      login_required view none a = Except.error 403) ∧
    (∀ (gu : String × Int) (sess : Option String),
      logoutRoute (some gu) sess
        = Except.ok (⟨true, JsonData.null⟩, none)) ∧
    (∀ (gUser : Option (String × Int)) (sess : Option String)
        (r : ApiResponse × Option String),
      logoutRoute gUser sess = Except.ok r →
      ∀ (cache : UserCache) (db : List UserRow) (α β : Type)
        (view : α → β) (a : α),
        login_required view (load_logged_in_user r.2 cache db).gUser a
          = Except.error 403) := by
  refine ⟨fun α β view a => rfl, fun gu sess => rfl, ?_⟩
  intro gUser sess r h cache db α β view a
  cases gUser with
  | none => simp [logoutRoute, login_required] at h
  | some gu =>
      have h2 : (Except.ok (⟨true, JsonData.null⟩, (none : Option String)) :
          Except Nat (ApiResponse × Option String)) = Except.ok r := h
      have hr := Except.ok.inj h2
      rw [← hr]
      rfl

/-- Witness for C5: a concrete guarded view is rejected on an empty
context, a concrete logout succeeds, and the guarded view of the next
request built from the logged-out session is rejected. -/
theorem c5_guard_forbidden_after_logout_witness :
    login_required (fun n : Nat => n + 1) none 0 = Except.error 403 ∧
    logoutRoute (some ("alice", 1)) (some "alice")
      = Except.ok (⟨true, JsonData.null⟩, none) ∧
    login_required (fun n : Nat => n + 1)
        (load_logged_in_user
          ((⟨true, JsonData.null⟩, none) :
            ApiResponse × Option String).2 [] []).gUser 0
      = Except.error 403 := by
  have h := c5_guard_forbidden_after_logout
  exact ⟨h.1 Nat Nat (fun n => n + 1) 0,
    h.2.1 ("alice", 1) (some "alice"),
    h.2.2 (some ("alice", 1)) (some "alice") (⟨true, JsonData.null⟩, none)
      (h.2.1 ("alice", 1) (some "alice")) [] [] Nat Nat (fun n => n + 1) 0⟩

/-- C6: the super-user-only guard rejects with 403 on an empty context
and on any context whose user type differs from 1, and it only ever
answers the wrapped view when the context holds user type 1. -/
theorem c6_super_user_guard :
    (∀ (α β : Type) (view : α → β) (a : α),
      super_user_required view none a = Except.error 403) ∧
    (∀ (α β : Type) (view : α → β) (gu : String × Int) (a : α),
      gu.2 ≠ 1 → super_user_required view (some gu) a = Except.error 403) ∧
    (∀ (α β : Type) (view : α → β) (gUser : Option (String × Int))
        (a : α) (b : β),
      super_user_required view gUser a = Except.ok b →
      ∃ gu, gUser = some gu ∧ gu.2 = 1 ∧ b = view a) := by
  refine ⟨fun α β view a => rfl, ?_, ?_⟩
  · intro α β view gu a h
    simp [super_user_required, h]
  · intro α β view gUser a b h
    cases gUser with
    | none => simp [super_user_required] at h
    | some gu =>
        by_cases h1 : gu.2 = 1
        · refine ⟨gu, rfl, h1, ?_⟩
          simp [super_user_required, h1] at h
          exact h.symm
        · simp [super_user_required, h1] at h

/-- Witness for C6: a concrete authenticated context of user type 0 is
rejected by the super-user-only guard. -/
theorem c6_super_user_guard_witness :
    super_user_required (fun n : Nat => n + 1) (some ("bob", 0)) 0
      = Except.error 403 := by
  exact c6_super_user_guard.2.1 Nat Nat (fun n => n + 1) ("bob", 0) 0
    (by decide)

/-- C7: the GET login path and every failing POST login leave the table
untouched and commit no UPDATE; a successful POST keeps every row of a
different name verbatim and, on any row, only ever changes the last-login
timestamp and the login counter, and only for the submitted name. -/
theorem c7_users_table_frame :
    (∀ (sess : Option String) (db : List UserRow),
      (loginGet sess db).db = db ∧ (loginGet sess db).updates = []) ∧
    (∀ (check : String → String → Bool) (now : PyDateTime)
        (data : LoginData) (sess : Option String) (db : List UserRow),
      (loginPost check now data sess db).response.status = false →
      (loginPost check now data sess db).db = db ∧
      (loginPost check now data sess db).updates = []) ∧
    (∀ (check : String → String → Bool) (now : PyDateTime)
        (data : LoginData) (sess : Option String) (db : List UserRow)
        (u : UserRow), u ∈ db → u.user_name ≠ data.userName →
      u ∈ (loginPost check now data sess db).db) ∧
    (∀ (check : String → String → Bool) (now : PyDateTime)
        (data : LoginData) (sess : Option String) (db : List UserRow)
        (v : UserRow), v ∈ (loginPost check now data sess db).db →
      ∃ u, u ∈ db ∧ v.password = u.password ∧ v.id = u.id ∧
        v.user_name = u.user_name ∧ v.user_type = u.user_type ∧
        v.avatar_name = u.avatar_name ∧ v.user_status = u.user_status ∧
        (v = u ∨ (v.last_login_time = formatYmdHms now ∧
          v.login_count = u.login_count + 1 ∧
          u.user_name = data.userName))) := by
  refine ⟨?_, ?_, ?_, ?_⟩
  · intro sess db
    cases sess with
    | none => exact ⟨rfl, rfl⟩
    | some name =>
        cases hf : fetchUser db name with
        | none => simp [loginGet, hf]
        | some u =>
            cases hs : u.user_status == 0 with
            | true => simp [loginGet, hf, hs]
            | false => simp [loginGet, hf, hs]
  · intro check now data sess db h
    cases hf : fetchUser db data.userName with
    | none => simp [loginPost, hf]
    | some u =>
        cases hpw : check u.password data.password with
        | false => simp [loginPost, hf, hpw]
        | true =>
            cases hs : u.user_status == 0 with
            | true => simp [loginPost, hf, hpw, hs]
            | false => simp [loginPost, hf, hpw, hs] at h
  · intro check now data sess db u hu hne
    cases hf : fetchUser db data.userName with
    | none => simpa [loginPost, hf] using hu
    | some w =>
        cases hpw : check w.password data.password with
        | false => simpa [loginPost, hf, hpw] using hu
        | true =>
            cases hs : w.user_status == 0 with
            | true => simpa [loginPost, hf, hpw, hs] using hu
            | false =>
                simp [loginPost, hf, hpw, hs, applyLoginUpdate,
                  List.mem_map]
                refine ⟨u, hu, ?_⟩
                simp [hne]
  · intro check now data sess db v hv
    cases hf : fetchUser db data.userName with
    | none =>
        refine ⟨v, ?_, rfl, rfl, rfl, rfl, rfl, rfl, Or.inl rfl⟩
        simpa [loginPost, hf] using hv
    | some w =>
        cases hpw : check w.password data.password with
        | false =>
            refine ⟨v, ?_, rfl, rfl, rfl, rfl, rfl, rfl, Or.inl rfl⟩
            simpa [loginPost, hf, hpw] using hv
        | true =>
            cases hs : w.user_status == 0 with
            | true =>
                refine ⟨v, ?_, rfl, rfl, rfl, rfl, rfl, rfl, Or.inl rfl⟩
                simpa [loginPost, hf, hpw, hs] using hv
            | false =>
                simp [loginPost, hf, hpw, hs, applyLoginUpdate,
                  List.mem_map] at hv
                obtain ⟨u, hu, hfu⟩ := hv
                by_cases hn : u.user_name = data.userName
                · rw [if_pos (by simpa using hn)] at hfu
                  refine ⟨u, hu, ?_⟩
                  rw [← hfu]
                  exact ⟨rfl, rfl, rfl, rfl, rfl, rfl,
                    Or.inr ⟨rfl, rfl, hn⟩⟩
                · rw [if_neg (by simpa using hn)] at hfu
                  refine ⟨u, hu, ?_⟩
                  rw [← hfu]
                  exact ⟨rfl, rfl, rfl, rfl, rfl, rfl, Or.inl rfl⟩

/-- Witness for C7: a failing POST and a GET leave a concrete table
unchanged, and a successful POST for one name keeps the row of another
name verbatim. -/
theorem c7_users_table_frame_witness :
    (loginGet (some "alice")
        [⟨"pw", 1, "alice", 1, "a.png", "2025-01-01 00:00:00", 1, 7⟩]).db
      = [⟨"pw", 1, "alice", 1, "a.png", "2025-01-01 00:00:00", 1, 7⟩] ∧
    (loginPost (fun h p => h == p) ⟨2026, 10, 12, 9, 5, 3⟩
        ⟨"mallory", "pw"⟩ none
        [⟨"pw", 1, "alice", 1, "a.png", "2025-01-01 00:00:00", 1, 7⟩]).db
      = [⟨"pw", 1, "alice", 1, "a.png", "2025-01-01 00:00:00", 1, 7⟩] ∧
    (⟨"pw", 1, "alice", 1, "a.png", "2025-01-01 00:00:00", 1, 7⟩ : UserRow)
      ∈ (loginPost (fun h p => h == p) ⟨2026, 10, 12, 9, 5, 3⟩
          ⟨"bob", "pw"⟩ none
          [⟨"pw", 1, "alice", 1, "a.png", "2025-01-01 00:00:00", 1, 7⟩,
           ⟨"pw", 2, "bob", 0, "b.png", "2024-05-05 05:05:05", 1, 3⟩]).db := by
  have h := c7_users_table_frame
  refine ⟨(h.1 (some "alice")
      [⟨"pw", 1, "alice", 1, "a.png", "2025-01-01 00:00:00", 1, 7⟩]).1,
    (h.2.1 (fun h p => h == p) ⟨2026, 10, 12, 9, 5, 3⟩ ⟨"mallory", "pw"⟩
      none [⟨"pw", 1, "alice", 1, "a.png", "2025-01-01 00:00:00", 1, 7⟩]
      (by decide)).1,
    h.2.2.1 (fun h p => h == p) ⟨2026, 10, 12, 9, 5, 3⟩ ⟨"bob", "pw"⟩ none
      [⟨"pw", 1, "alice", 1, "a.png", "2025-01-01 00:00:00", 1, 7⟩,
       ⟨"pw", 2, "bob", 0, "b.png", "2024-05-05 05:05:05", 1, 3⟩]
      ⟨"pw", 1, "alice", 1, "a.png", "2025-01-01 00:00:00", 1, 7⟩
      (by decide) (by decide)⟩

theorem decRead_exact (p s : Nat) (q : ℚ) (h : exactDecimal p s q) :
    decRead s q = q := by
  obtain ⟨n, hn, _⟩ := h
  rw [decRead, hn, round_intCast, div_eq_iff (by positivity)]
  exact hn.symm

theorem storeDecimal_exact (p s : Nat) (q : ℚ) (h : exactDecimal p s q) :
    storeDecimal p s q = some q := by
  obtain ⟨n, hn, hb⟩ := h
  simp only [storeDecimal, hn, round_intCast]
  rw [if_pos hb]
  congr 1
  rw [div_eq_iff (by positivity)]
  exact hn.symm

/-- C8: the `Vehicle` model declares total voltage and current with two
fractional digits, state of charge as DECIMAL(5, 2), extreme cell
voltages as DECIMAL(10, 6), the index numbers, mileage, rated capacity,
speed and charging-state code as integers, and an index on the timestamp
column; and a record whose decimal fields are exactly representable at
those precisions and whose integer fields fit the integer range reads
back unchanged. -/
theorem c8_vehicle_schema_roundtrip (r : VehicleRecord)
    (hd : vehicleDecimalsExact r) (hi : vehicleIntsInRange r) :
    (colSpec "bty_t_vol").map ColumnSpec.colType
      = some (ColType.decimal 10 2) ∧
    (colSpec "bty_t_curr").map ColumnSpec.colType
      = some (ColType.decimal 10 2) ∧
    (colSpec "battery_soc").map ColumnSpec.colType
      = some (ColType.decimal 5 2) ∧
    (colSpec "s_b_max_v").map ColumnSpec.colType
      = some (ColType.decimal 10 6) ∧
    (colSpec "s_b_min_v").map ColumnSpec.colType
      = some (ColType.decimal 10 6) ∧
    (colSpec "max_t_s_b_num").map ColumnSpec.colType
      = some ColType.integer ∧
    (colSpec "min_t_s_b_num").map ColumnSpec.colType
      = some ColType.integer ∧
    (colSpec "max_v_e_core_num").map ColumnSpec.colType
      = some ColType.integer ∧
    (colSpec "min_v_e_core_num").map ColumnSpec.colType
      = some ColType.integer ∧
    (colSpec "total_mileage").map ColumnSpec.colType
      = some ColType.integer ∧
    (colSpec "bty_sys_rated_capacity").map ColumnSpec.colType
      = some ColType.integer ∧
    (colSpec "met_spd").map ColumnSpec.colType = some ColType.integer ∧
    (colSpec "byt_ma_sys_state").map ColumnSpec.colType
      = some ColType.integer ∧
    (colSpec "timestamp").map ColumnSpec.indexed = some true ∧
    storedVehicle r = r ∧
    storeDecimal 10 2 r.bty_t_vol = some r.bty_t_vol ∧
    storeDecimal 10 2 r.bty_t_curr = some r.bty_t_curr ∧
    storeDecimal 5 2 r.battery_soc = some r.battery_soc ∧
    storeDecimal 10 6 r.s_b_max_v = some r.s_b_max_v ∧
    storeDecimal 10 6 r.s_b_min_v = some r.s_b_min_v ∧
    storeInt r.total_mileage = some r.total_mileage ∧
    storeInt r.met_spd = some r.met_spd ∧
    storeInt r.byt_ma_sys_state = some r.byt_ma_sys_state := by
  obtain ⟨h1, h2, h3, h4, h5, h6, h7⟩ := hd
  obtain ⟨i1, i2, i3, i4, i5, i6, i7, i8, i9, i10, i11, i12⟩ := hi
  refine ⟨rfl, rfl, rfl, rfl, rfl, rfl, rfl, rfl, rfl, rfl, rfl, rfl,
    rfl, rfl, ?_, storeDecimal_exact 10 2 r.bty_t_vol h1,
    storeDecimal_exact 10 2 r.bty_t_curr h2,
    storeDecimal_exact 5 2 r.battery_soc h3,
    storeDecimal_exact 10 6 r.s_b_max_v h4,
    storeDecimal_exact 10 6 r.s_b_min_v h5, i8, i11, i12⟩
  rw [storedVehicle, decRead_exact 10 2 r.bty_t_vol h1,
    decRead_exact 10 2 r.bty_t_curr h2,
    decRead_exact 5 2 r.battery_soc h3,
    decRead_exact 10 6 r.s_b_max_v h4,
    decRead_exact 10 6 r.s_b_min_v h5,
    decRead_exact 10 2 r.p_t_p h6,
    decRead_exact 10 2 r.r_t_p h7]

/-- Witness for C8 at a concrete telemetry record with two fractional
digits on voltages and SOC and six on cell voltages. -/
theorem c8_vehicle_schema_roundtrip_witness :
    storedVehicle
        ⟨1, "河南", "郑州", "2021-01-01 00:00:00", 58950/100, -1250/100,
          8525/100, 45, 12, 20, 7, 3654321/1000000, 33, 3123456/1000000,
          14, 10050/100, 9900/100, 100000, 600, 120, 60, 6⟩
      = ⟨1, "河南", "郑州", "2021-01-01 00:00:00", 58950/100, -1250/100,
          8525/100, 45, 12, 20, 7, 3654321/1000000, 33, 3123456/1000000,
          14, 10050/100, 9900/100, 100000, 600, 120, 60, 6⟩ ∧
    (colSpec "timestamp").map ColumnSpec.indexed = some true := by
  have h := c8_vehicle_schema_roundtrip
    ⟨1, "河南", "郑州", "2021-01-01 00:00:00", 58950/100, -1250/100,
      8525/100, 45, 12, 20, 7, 3654321/1000000, 33, 3123456/1000000,
      14, 10050/100, 9900/100, 100000, 600, 120, 60, 6⟩
    ⟨⟨58950, by norm_num, by norm_num⟩, ⟨-1250, by norm_num, by norm_num⟩,
     ⟨8525, by norm_num, by norm_num⟩, ⟨3654321, by norm_num, by norm_num⟩,
     ⟨3123456, by norm_num, by norm_num⟩, ⟨10050, by norm_num, by norm_num⟩,
     ⟨9900, by norm_num, by norm_num⟩⟩
    ⟨by decide, by decide, by decide, by decide, by decide, by decide,
     by decide, by decide, by decide, by decide, by decide, by decide⟩
  obtain ⟨k1, k2, k3, k4, k5, k6, k7, k8, k9, k10, k11, k12, k13, k14,
    k15, _⟩ := h
  exact ⟨k15, k14⟩
